import Mathlib

/-!
Verification of the `x_make_graphviz_x` repository: a shallow embedding of
its vendored-binary locator (`src/vendor_support.py`), its JSON contract
modules (`src/json_contracts.py` and `src/json_contracts/__init__.py`), and
its Graphviz builder / export pipeline (modelled from the specification,
since the builder implementation ships outside this source excerpt).
-/

namespace GraphvizX

/-! ## JSON values

A structural model of the Python dict/list/scalar values used by the two
JSON-contract modules.  Objects are ordered key-value lists, mirroring the
insertion order of Python dict literals; structural equality of the model
is structural equality of the Python values. -/

inductive Json where
  | str (s : String) : Json
  | num (n : Int) : Json
  | bool (b : Bool) : Json
  | null : Json
  | arr (items : List Json) : Json
  | obj (fields : List (String × Json)) : Json

/-! ### `src/json_contracts.py` (standalone module)

Each definition below transcribes the dict literal of the same name from
`src/json_contracts.py`, field for field, in source order. -/

namespace ContractsModule

def NODE_SCHEMA : Json :=
  .obj [
    ("type", .str "object"),
    ("properties", .obj [
      ("id", .obj [("type", .str "string")]),
      ("label", .obj [("type", .arr [.str "string", .str "null"])]),
      ("attributes", .obj [("type", .str "object")])
    ]),
    ("required", .arr [.str "id"]),
    ("additionalProperties", .bool true)
  ]

def EDGE_SCHEMA : Json :=
  .obj [
    ("type", .str "object"),
    ("properties", .obj [
      ("source", .obj [("type", .str "string")]),
      ("target", .obj [("type", .str "string")]),
      ("attributes", .obj [("type", .str "object")])
    ]),
    ("required", .arr [.str "source", .str "target"]),
    ("additionalProperties", .bool true)
  ]

def INPUT_SCHEMA : Json :=
  .obj [
    ("$schema", .str "https://json-schema.org/draft/2020-12/schema"),
    ("title", .str "x_make_graphviz_x input"),
    ("type", .str "object"),
    ("properties", .obj [
      ("command", .obj [("const", .str "x_make_graphviz_x")]),
      ("parameters", .obj [
        ("type", .str "object"),
        ("properties", .obj [
          ("directed", .obj [("type", .str "boolean")]),
          ("engine", .obj [
            ("type", .arr [.str "string", .str "null"]),
            ("minLength", .num 1)
          ]),
          ("graph_attributes", .obj [("type", .str "object")]),
          ("nodes", .obj [
            ("type", .str "array"),
            ("items", NODE_SCHEMA),
            ("minItems", .num 1)
          ]),
          ("edges", .obj [
            ("type", .str "array"),
            ("items", EDGE_SCHEMA)
          ]),
          ("export", .obj [
            ("type", .str "object"),
            ("properties", .obj [
              ("enable", .obj [("type", .str "boolean")]),
              ("filename", .obj [("type", .arr [.str "string", .str "null"])]),
              ("directory", .obj [("type", .arr [.str "string", .str "null"])])
            ]),
            ("required", .arr [.str "enable"]),
            ("additionalProperties", .bool false)
          ])
        ]),
        ("required", .arr [.str "nodes", .str "edges"]),
        ("additionalProperties", .bool false)
      ])
    ]),
    ("required", .arr [.str "command", .str "parameters"]),
    ("additionalProperties", .bool false)
  ]

def OUTPUT_SCHEMA : Json :=
  .obj [
    ("$schema", .str "https://json-schema.org/draft/2020-12/schema"),
    ("title", .str "x_make_graphviz_x output"),
    ("type", .str "object"),
    ("properties", .obj [
      ("status", .obj [("enum", .arr [.str "success", .str "failure"])]),
      ("dot_source", .obj [("type", .str "string")]),
      ("svg_path", .obj [("type", .arr [.str "string", .str "null"])]),
      ("report_path", .obj [("type", .arr [.str "string", .str "null"])])
    ]),
    ("required", .arr [.str "status", .str "dot_source"]),
    ("additionalProperties", .bool true)
  ]

def ERROR_SCHEMA : Json :=
  .obj [
    ("$schema", .str "https://json-schema.org/draft/2020-12/schema"),
    ("title", .str "x_make_graphviz_x error"),
    ("type", .str "object"),
    ("properties", .obj [
      ("status", .obj [("const", .str "failure")]),
      ("message", .obj [("type", .str "string")]),
      ("details", .obj [("type", .str "object")])
    ]),
    ("required", .arr [.str "status", .str "message"]),
    ("additionalProperties", .bool true)
  ]

end ContractsModule

/-! ### `src/json_contracts/__init__.py` (package module)

Each definition transcribes the dict literal of the same name from
`src/json_contracts/__init__.py`.  The package module additionally aliases
itself into `sys.modules`, which does not affect the values. -/

namespace ContractsPackage

def NODE_SCHEMA : Json :=
  .obj [
    ("type", .str "object"),
    ("properties", .obj [
      ("id", .obj [("type", .str "string")]),
      ("label", .obj [("type", .arr [.str "string", .str "null"])]),
      ("attributes", .obj [("type", .str "object")])
    ]),
    ("required", .arr [.str "id"]),
    ("additionalProperties", .bool true)
  ]

def EDGE_SCHEMA : Json :=
  .obj [
    ("type", .str "object"),
    ("properties", .obj [
      ("source", .obj [("type", .str "string")]),
      ("target", .obj [("type", .str "string")]),
      ("attributes", .obj [("type", .str "object")])
    ]),
    ("required", .arr [.str "source", .str "target"]),
    ("additionalProperties", .bool true)
  ]

def INPUT_SCHEMA : Json :=
  .obj [
    ("$schema", .str "https://json-schema.org/draft/2020-12/schema"),
    ("title", .str "x_make_graphviz_x input"),
    ("type", .str "object"),
    ("properties", .obj [
      ("command", .obj [("const", .str "x_make_graphviz_x")]),
      ("parameters", .obj [
        ("type", .str "object"),
        ("properties", .obj [
          ("directed", .obj [("type", .str "boolean")]),
          ("engine", .obj [
            ("type", .arr [.str "string", .str "null"]),
            ("minLength", .num 1)
          ]),
          ("graph_attributes", .obj [("type", .str "object")]),
          ("nodes", .obj [
            ("type", .str "array"),
            ("items", NODE_SCHEMA),
            ("minItems", .num 1)
          ]),
          ("edges", .obj [
            ("type", .str "array"),
            ("items", EDGE_SCHEMA)
          ]),
          ("export", .obj [
            ("type", .str "object"),
            ("properties", .obj [
              ("enable", .obj [("type", .str "boolean")]),
              ("filename", .obj [("type", .arr [.str "string", .str "null"])]),
              ("directory", .obj [("type", .arr [.str "string", .str "null"])])
            ]),
            ("required", .arr [.str "enable"]),
            ("additionalProperties", .bool false)
          ])
        ]),
        ("required", .arr [.str "nodes", .str "edges"]),
        ("additionalProperties", .bool false)
      ])
    ]),
    ("required", .arr [.str "command", .str "parameters"]),
    ("additionalProperties", .bool false)
  ]

def OUTPUT_SCHEMA : Json :=
  .obj [
    ("$schema", .str "https://json-schema.org/draft/2020-12/schema"),
    ("title", .str "x_make_graphviz_x output"),
    ("type", .str "object"),
    ("properties", .obj [
      ("status", .obj [("enum", .arr [.str "success", .str "failure"])]),
      ("dot_source", .obj [("type", .str "string")]),
      ("svg_path", .obj [("type", .arr [.str "string", .str "null"])]),
      ("report_path", .obj [("type", .arr [.str "string", .str "null"])])
    ]),
    ("required", .arr [.str "status", .str "dot_source"]),
    ("additionalProperties", .bool true)
  ]

def ERROR_SCHEMA : Json :=
  .obj [
    ("$schema", .str "https://json-schema.org/draft/2020-12/schema"),
    ("title", .str "x_make_graphviz_x error"),
    ("type", .str "object"),
    ("properties", .obj [
      ("status", .obj [("const", .str "failure")]),
      ("message", .obj [("type", .str "string")]),
      ("details", .obj [("type", .str "object")])
    ]),
    ("required", .arr [.str "status", .str "message"]),
    ("additionalProperties", .bool true)
  ]

end ContractsPackage

/-! ## Vendored renderer discovery (`src/vendor_support.py`)

The filesystem is abstracted as a structure of query functions: existence,
recursive glob, symlink resolution (`Path.resolve`, which may raise
`OSError`, modelled as `Option`) and the regular-file test.  Paths are the
resolved path strings. -/

structure FS where
  pathExists : String → Bool
  rglob : String → String → List String
  resolve : String → Option String
  isFile : String → Bool

/-- Embeds `_iter_paths(root, patterns)`: returns no candidates when the
root does not exist, otherwise concatenates `root.rglob(pattern)` for each
pattern in order. -/
def iterPaths (fs : FS) (root : String) (patterns : List String) : List String :=
  if fs.pathExists root then (patterns.map (fun p => fs.rglob root p)).flatten else []

/-- One iteration of the loop body of `_normalize_candidates`: the state is
the pair (normalized list, seen set); a candidate whose resolution raises
`OSError` is skipped, as is a non-file or an already-seen resolved path. -/
def normStep (fs : FS) (acc : List String × List String) (candidate : String) :
    List String × List String :=
  match fs.resolve candidate with
  | none => acc
  | some resolved =>
    if !fs.isFile resolved then acc
    else if resolved ∈ acc.2 then acc
    else (acc.1 ++ [resolved], acc.2 ++ [resolved])

/-- Lexicographic comparison of character lists by code point; computable
counterpart of the order `sorted` uses on the path strings. -/
def charsLe : List Char → List Char → Bool
  | [], _ => true
  | _ :: _, [] => false
  | a :: as, b :: bs => if a < b then true else if b < a then false else charsLe as bs

def strLe (a b : String) : Bool := charsLe a.data b.data

/-- Embeds `_normalize_candidates`: the dedup/filter loop followed by
`tuple(sorted(normalized))`.  Sorting is by the lexicographic order on the
resolved path strings. -/
def normalizeCandidates (fs : FS) (candidates : List String) : List String :=
  List.insertionSort (fun a b => strLe a b = true) ((candidates.foldl (normStep fs) ([], [])).1)

/-- The glob patterns `("dot.exe", "dot")` of `vendored_dot_binaries`. -/
def dotPatterns : List String := ["dot.exe", "dot"]

/-- The uncached body of `vendored_dot_binaries()`: normalize the candidates
found under the vendor root. -/
def computeVendoredDotBinaries (fs : FS) (vendorRoot : String) : List String :=
  normalizeCandidates fs (iterPaths fs vendorRoot dotPatterns)

/-- Process state for the `@lru_cache(maxsize=1)` on the nullary function
`vendored_dot_binaries`: the cached value, if any, plus a count of how many
times the discovery scan actually ran. -/
structure CacheState where
  cache : Option (List String)
  scans : Nat
deriving DecidableEq

def initCache : CacheState := ⟨none, 0⟩

/-- One call of the cached `vendored_dot_binaries()`: a hit returns the
memoised tuple untouched; a miss runs the scan once and stores it. -/
def vendoredDotBinariesCall (fs : FS) (root : String) (s : CacheState) :
    List String × CacheState :=
  match s.cache with
  | some v => (v, s)
  | none =>
    let v := computeVendoredDotBinaries fs root
    (v, ⟨some v, s.scans + 1⟩)

/-- A sequence of `n` calls to the cached function, collecting each call's
result and threading the process state. -/
def runCalls (fs : FS) (root : String) : Nat → CacheState → List (List String) × CacheState
  | 0, s => ([], s)
  | n + 1, s =>
    let r := vendoredDotBinariesCall fs root s
    let rest := runCalls fs root n r.2
    (r.1 :: rest.1, rest.2)

/-- `Path.name`: the final path component — the characters after the last
path separator. -/
def pathNameChars (cs : List Char) : List Char :=
  cs.foldl (fun acc c => if c == '/' then [] else acc ++ [c]) []

def pathName (p : String) : String := String.mk (pathNameChars p.data)

/-- `Path.suffix` of a final component `name`: the part from the last dot,
provided that dot is neither the first nor the last character. -/
def suffixOfName (name : String) : String :=
  let cs := name.data
  match cs.reverse.findIdx? (fun c => c == '.') with
  | none => ""
  | some j =>
    let i := cs.length - 1 - j
    if 0 < i ∧ i < cs.length - 1 then String.mk (cs.drop i) else ""

def pathSuffix (p : String) : String := suffixOfName (pathName p)

/-- ASCII lower-casing of a string, as `str.lower()` behaves on the ASCII
suffixes compared here. -/
def strToLower (s : String) : String := String.mk (s.data.map Char.toLower)

/-- `candidate.suffix.lower() == ".exe"`. -/
def hasWindowsExeSuffix (p : String) : Bool := strToLower (pathSuffix p) == ".exe"

/-- The `for candidate in binaries` loop of `find_vendored_dot_binary`:
first candidate with a Windows executable suffix, if any. -/
def firstExeCandidate : List String → Option String
  | [] => none
  | c :: rest => if hasWindowsExeSuffix c then some c else firstExeCandidate rest

/-- Embeds `find_vendored_dot_binary(*, windows_only)`.  `isWindows` models
`_is_windows()` and `binaries` models the cached `vendored_dot_binaries()`
tuple. -/
def findVendoredDotBinary (isWindows windowsOnly : Bool) (binaries : List String) :
    Option String :=
  if windowsOnly && !isWindows then none
  else if binaries.isEmpty then none
  else if windowsOnly then firstExeCandidate binaries
  else binaries.head?

/-- A small concrete filesystem used to instantiate the vendor-locator
theorems: two regular files, one duplicate symlink, one candidate whose
resolution fails. -/
def exampleFS : FS where
  pathExists := fun p => p == "/pkg/vendor"
  rglob := fun root pat =>
    if root == "/pkg/vendor" && pat == "dot.exe" then
      ["/pkg/vendor/bin/dot.exe", "/pkg/vendor/dup/dot.exe"]
    else if root == "/pkg/vendor" && pat == "dot" then
      ["/pkg/vendor/bin/dot", "/pkg/vendor/broken/dot"]
    else []
  resolve := fun p =>
    if p == "/pkg/vendor/broken/dot" then none
    else if p == "/pkg/vendor/dup/dot.exe" then some "/pkg/vendor/bin/dot.exe"
    else some p
  isFile := fun p => p == "/pkg/vendor/bin/dot.exe" || p == "/pkg/vendor/bin/dot"

/-- A filesystem with no vendor directory at all. -/
def emptyFS : FS where
  pathExists := fun _ => false
  rglob := fun _ _ => []
  resolve := fun p => some p
  isFile := fun _ => false

/-! ## Graph builder and export pipeline

Modelled from the spec: the `GraphvizBuilder` implementation (module
`x_cls_make_graphviz_x`) is not part of this source excerpt — only its
tests and callers are — so the data model of spec section 3 and the
contracts of sections 4.1, 4.2 and 4.4 are transcribed here. -/

/-- Modelled from the spec: `AttrValue` is one of string, number, boolean,
absent; `absent` means the attribute is omitted entirely from output.
(Float values are out of scope of the claims and share the number arm.) -/
inductive AttrValue where
  | str (s : String)
  | num (n : Int)
  | boolean (b : Bool)
  | absent
deriving DecidableEq

/-- Modelled from the spec: the escaping loop of the Attribute Encoder —
a double quote or backslash is preceded by a backslash, every other
character is copied unchanged. -/
def escapeChars (cs : List Char) : List Char :=
  cs.foldl (fun acc c => if c == '"' || c == '\\' then acc ++ ['\\', c] else acc ++ [c]) []

def escapeDot (s : String) : String := String.mk (escapeChars s.data)

/-- Modelled from the spec: textual form of a non-absent attribute value —
booleans as `true`/`false`, numbers in decimal, strings verbatim. -/
def valueText : AttrValue → Option String
  | .str s => some s
  | .num n => some (toString n)
  | .boolean b => some (if b then "true" else "false")
  | .absent => none

def attrToken (k t : String) : String := k ++ "=\"" ++ escapeDot t ++ "\""

/-- Modelled from the spec: the Attribute Encoder — entries in insertion
order, absent values skipped, each remaining entry emitted once as
`key="escaped_value"`, comma-joined, empty mapping giving the empty
string. -/
def encodeAttrs (attrs : List (String × AttrValue)) : String :=
  String.intercalate ", "
    (attrs.filterMap (fun kv => (valueText kv.2).map (fun t => attrToken kv.1 t)))

/-- Every identifier is emitted double-quoted (with the same escaping). -/
def quoteId (s : String) : String := "\"" ++ escapeDot s ++ "\""

/-- The caller of the encoder omits the surrounding brackets entirely when
the encoded attribute list is empty. -/
def bracketSuffix (enc : String) : String :=
  if enc = "" then "" else " [" ++ enc ++ "]"

/-- Modelled from the spec: a node declaration (section 3 `NodeEntry`). -/
structure NodeEntry where
  id : String
  label : Option String
  attributes : List (String × AttrValue)
deriving DecidableEq

/-- Modelled from the spec: an edge declaration (section 3 `EdgeEntry`). -/
structure EdgeEntry where
  source : String
  target : String
  label : Option String
  from_port : Option String
  to_port : Option String
  attributes : List (String × AttrValue)
deriving DecidableEq

/-- Modelled from the spec: the builder-owned graph state (section 3
`GraphSpec`). -/
structure GraphSpec where
  directed : Bool
  graph_attributes : List (String × AttrValue)
  node_defaults : List (String × AttrValue)
  edge_defaults : List (String × AttrValue)
  nodes : List NodeEntry
  edges : List EdgeEntry
  rank_groups : List (List String)
deriving DecidableEq

/-- Label handling: when a label is present it is encoded last, after the
explicit attributes. -/
def attrsWithLabel (attrs : List (String × AttrValue)) (label : Option String) :
    List (String × AttrValue) :=
  match label with
  | some l => attrs ++ [("label", .str l)]
  | none => attrs

def nodeStatement (n : NodeEntry) : String :=
  "  " ++ quoteId n.id ++ bracketSuffix (encodeAttrs (attrsWithLabel n.attributes n.label))

def portSuffix : Option String → String
  | some p => ":" ++ p
  | none => ""

def edgeOp (directed : Bool) : String := if directed then " -> " else " -- "

def edgeStatement (directed : Bool) (e : EdgeEntry) : String :=
  "  " ++ quoteId e.source ++ portSuffix e.from_port ++ edgeOp directed ++
    quoteId e.target ++ portSuffix e.to_port ++
    bracketSuffix (encodeAttrs (attrsWithLabel e.attributes e.label))

def rankStatement (ids : List String) : String :=
  "  \x7brank=same;" ++ String.join (ids.map (fun i => " " ++ quoteId i ++ ";")) ++ "\x7d"

/-- A `graph [...]` / `node [...]` / `edge [...]` default statement, emitted
only when the encoded mapping is non-empty. -/
def defaultStatement (kw : String) (attrs : List (String × AttrValue)) : List String :=
  let enc := encodeAttrs attrs
  if enc = "" then [] else ["  " ++ kw ++ " [" ++ enc ++ "]"]

def headerLine (directed : Bool) : String :=
  if directed then "digraph G \x7b" else "graph G \x7b"

/-- Modelled from the spec: `dot_source()` serialization in the fixed order
of section 4.2 — header, graph attributes, node defaults, edge defaults,
nodes in declaration order, rank groups, edges, closing brace. -/
def dotSourceSpec (g : GraphSpec) : String :=
  String.intercalate "\n"
    ([headerLine g.directed] ++
      defaultStatement "graph" g.graph_attributes ++
      defaultStatement "node" g.node_defaults ++
      defaultStatement "edge" g.edge_defaults ++
      g.nodes.map nodeStatement ++
      g.rank_groups.map rankStatement ++
      g.edges.map (edgeStatement g.directed) ++
      ["\x7d"])

inductive ExportMethod where
  | native_binding
  | external_binary
  | unavailable
deriving DecidableEq

/-- Modelled from the spec: the `ExportResult` record (section 3). -/
structure ExportResult where
  succeeded : Bool
  dot_path : String
  image_path : Option String
  method : ExportMethod
  error_detail : Option String
deriving DecidableEq

/-- Modelled from the spec: a builder instance — the graph state plus the
construction-time renderer configuration and the most recent export
result. -/
structure Builder where
  spec : GraphSpec
  dot_binary : Option String
  runner_tag : Nat
  last_result : Option ExportResult

/-- `dot_source()` reads only the graph state of the builder. -/
def dot_source (b : Builder) : String := dotSourceSpec b.spec

/-- Modelled from the spec: the renderer environment an export call runs
against — whether the native binding is importable, which external binary
(if any) resolution produces, and the injected runner's observable
outcome. -/
structure RenderEnv where
  nativeAvailable : Bool
  resolvedBinary : Option String
  runnerExitCode : Nat
  runnerStderr : String
deriving DecidableEq

/-- Modelled from the spec: one `export(dot_source, base_path)` call
(section 4.4).  Returns the files written (path, content), the returned
`(dot_path, image_path)` pair, and the recorded `ExportResult`.  The
`.dot` sidecar is written first and unconditionally; the tiers are tried
in order native binding, external binary, unavailable.  The function is
total: no failure escapes as an exception. -/
def exportRun (env : RenderEnv) (dotSrc basePath fmt : String) :
    List (String × String) × (String × Option String) × ExportResult :=
  let dotPath := basePath ++ ".dot"
  let imgPath := basePath ++ "." ++ fmt
  let dotFiles := [(dotPath, dotSrc)]
  if env.nativeAvailable then
    (dotFiles ++ [(imgPath, "rendered:" ++ fmt)], (dotPath, some imgPath),
      ⟨true, dotPath, some imgPath, .native_binding, none⟩)
  else
    match env.resolvedBinary with
    | some _ =>
      if env.runnerExitCode = 0 then
        (dotFiles ++ [(imgPath, "rendered:" ++ fmt)], (dotPath, some imgPath),
          ⟨true, dotPath, some imgPath, .external_binary, none⟩)
      else
        (dotFiles, (dotPath, none),
          ⟨false, dotPath, none, .external_binary, some env.runnerStderr⟩)
    | none =>
      (dotFiles, (dotPath, none), ⟨false, dotPath, none, .unavailable, none⟩)

/-- Modelled from the spec: `to_svg(base_path)` — export with the `svg`
format, returning the image path (absent on fallback) and recording the
result on the builder. -/
def toSvg (env : RenderEnv) (b : Builder) (basePath : String) :
    Option String × Builder :=
  let r := exportRun env (dot_source b) basePath "svg"
  (r.2.1.2, { b with last_result := some r.2.2 })

/-- Modelled from the spec: `render(output_file, output_format)` — on any
renderer failure it returns the raw DOT text itself instead of raising. -/
def render (env : RenderEnv) (b : Builder) (outputFile outputFormat : String) : String :=
  let src := dot_source b
  let r := exportRun env src outputFile outputFormat
  if r.2.2.succeeded then
    match r.2.1.2 with
    | some p => p
    | none => src
  else src

/-- The scenario graph of spec section 8: an undirected graph with one
labelled node, one labelled weighted edge, and the three default
mappings. -/
def exampleSpec : GraphSpec where
  directed := false
  graph_attributes := [("rankdir", .str "LR")]
  node_defaults := [("shape", .str "box")]
  edge_defaults := [("color", .str "gray")]
  nodes := [⟨"alice", some "Alice", [("tooltip", .str "Owner")]⟩]
  edges := [⟨"alice", "bob", some "knows", none, none, [("weight", .num 2)]⟩]
  rank_groups := []

end GraphvizX

open GraphvizX

/-! Helper lemmas shared by the claim theorems. -/

/-- `charsLe` decides the negation of the strict lexicographic order in the
other direction. -/
theorem charsLe_iff_not_lex : ∀ as bs : List Char,
    charsLe as bs = true ↔ ¬ List.Lex (· < ·) bs as
  | [], bs =>
    ⟨fun _ h => (nomatch h), fun _ => rfl⟩
  | a :: as, [] => by
    refine iff_of_false (by simp [charsLe]) (not_not_intro List.Lex.nil)
  | a :: as, b :: bs => by
    rcases lt_trichotomy a b with hab | heq | hba
    · rw [charsLe, if_pos hab]
      refine iff_of_true rfl fun h => ?_
      cases h with
      | cons h => exact lt_irrefl _ hab
      | rel h => exact lt_asymm hab h
    · subst heq
      rw [charsLe, if_neg (lt_irrefl a), if_neg (lt_irrefl a), charsLe_iff_not_lex as bs]
      constructor
      · intro h hl
        cases hl with
        | cons hl => exact h hl
        | rel hl => exact lt_irrefl _ hl
      · intro h hl
        exact h (List.Lex.cons hl)
    · rw [charsLe, if_neg (lt_asymm hba), if_pos hba]
      exact iff_of_false (by simp) (not_not_intro (List.Lex.rel hba))

/-- `strLe` decides Mathlib's lexicographic order on strings. -/
theorem strLe_iff_le (a b : String) : strLe a b = true ↔ a ≤ b := by
  rw [String.le_iff_toList_le]
  have h2 : ¬ b.toList < a.toList ↔ a.toList ≤ b.toList := not_lt
  exact (charsLe_iff_not_lex a.data b.data).trans h2

theorem strLe_total (a b : String) : strLe a b = true ∨ strLe b a = true := by
  rcases le_total a b with h | h
  · exact Or.inl ((strLe_iff_le a b).mpr h)
  · exact Or.inr ((strLe_iff_le b a).mpr h)

theorem strLe_trans {a b c : String} (hab : strLe a b = true) (hbc : strLe b c = true) :
    strLe a c = true :=
  (strLe_iff_le a c).mpr (le_trans ((strLe_iff_le a b).mp hab) ((strLe_iff_le b c).mp hbc))

/-- Invariant of the `_normalize_candidates` accumulation loop: starting
from a duplicate-free list of regular files (with the seen set equal to the
list), the loop keeps the list duplicate-free, keeps every element a
regular file, and only ever appends values produced by a successful
resolution of some candidate. -/
theorem normFold_inv (fs : FS) :
    ∀ (cs : List String) (norm : List String),
      norm.Nodup → (∀ r ∈ norm, fs.isFile r = true) →
      (cs.foldl (normStep fs) (norm, norm)).1.Nodup ∧
        (∀ r ∈ (cs.foldl (normStep fs) (norm, norm)).1, fs.isFile r = true) ∧
        (∀ r ∈ (cs.foldl (normStep fs) (norm, norm)).1,
          r ∈ norm ∨ ∃ c ∈ cs, fs.resolve c = some r)
  | [], norm, hnd, hfile => by
    refine ⟨hnd, hfile, fun r hr => Or.inl hr⟩
  | c :: cs, norm, hnd, hfile => by
    rw [List.foldl_cons]
    rcases hres : fs.resolve c with _ | x
    · have step : normStep fs (norm, norm) c = (norm, norm) := by
        simp [normStep, hres]
      rw [step]
      obtain ⟨h1, h2, h3⟩ := normFold_inv fs cs norm hnd hfile
      exact ⟨h1, h2, fun r hr => (h3 r hr).imp_right
        (fun ⟨c', hc', hr'⟩ => ⟨c', List.mem_cons_of_mem _ hc', hr'⟩)⟩
    · rcases hf : fs.isFile x with _ | _
      · have step : normStep fs (norm, norm) c = (norm, norm) := by
          simp [normStep, hres, hf]
        rw [step]
        obtain ⟨h1, h2, h3⟩ := normFold_inv fs cs norm hnd hfile
        exact ⟨h1, h2, fun r hr => (h3 r hr).imp_right
          (fun ⟨c', hc', hr'⟩ => ⟨c', List.mem_cons_of_mem _ hc', hr'⟩)⟩
      · by_cases hm : x ∈ norm
        · have step : normStep fs (norm, norm) c = (norm, norm) := by
            simp [normStep, hres, hf, hm]
          rw [step]
          obtain ⟨h1, h2, h3⟩ := normFold_inv fs cs norm hnd hfile
          exact ⟨h1, h2, fun r hr => (h3 r hr).imp_right
            (fun ⟨c', hc', hr'⟩ => ⟨c', List.mem_cons_of_mem _ hc', hr'⟩)⟩
        · have step : normStep fs (norm, norm) c = (norm ++ [x], norm ++ [x]) := by
            simp [normStep, hres, hf, hm]
          rw [step]
          have hnd' : (norm ++ [x]).Nodup := by
            simp [List.nodup_append, hnd, hm]
          have hfile' : ∀ r ∈ norm ++ [x], fs.isFile r = true := by
            intro r hr
            rcases List.mem_append.mp hr with h | h
            · exact hfile r h
            · rcases List.mem_singleton.mp h with rfl
              exact hf
          obtain ⟨h1, h2, h3⟩ := normFold_inv fs cs (norm ++ [x]) hnd' hfile'
          refine ⟨h1, h2, fun r hr => ?_⟩
          rcases h3 r hr with h | ⟨c', hc', hr'⟩
          · rcases List.mem_append.mp h with h | h
            · exact Or.inl h
            · rcases List.mem_singleton.mp h with rfl
              exact Or.inr ⟨c, List.mem_cons_self _ _, hres⟩
          · exact Or.inr ⟨c', List.mem_cons_of_mem _ hc', hr'⟩

/-- The `for` loop of `find_vendored_dot_binary` is `List.find?` on the
Windows-suffix test. -/
theorem firstExeCandidate_eq_find : ∀ bins : List String,
    firstExeCandidate bins = bins.find? hasWindowsExeSuffix
  | [] => rfl
  | c :: rest => by
    rw [firstExeCandidate, List.find?_cons, firstExeCandidate_eq_find rest]
    rcases h : hasWindowsExeSuffix c <;> simp [h]

/-- Once the lru cache holds a value, every further call returns that value
and leaves the process state unchanged. -/
theorem runCalls_after_hit (fs : FS) (root : String) :
    ∀ (m : Nat) (s : CacheState) (v : List String), s.cache = some v →
      runCalls fs root m s = (List.replicate m v, s)
  | 0, s, v, h => by simp [runCalls]
  | m + 1, s, v, h => by
    simp [runCalls, vendoredDotBinariesCall, h, runCalls_after_hit fs root m s v h,
      List.replicate_succ]

/-- The generalized accumulator form of the escaping loop. -/
theorem escapeChars_foldl_append : ∀ (cs : List Char) (acc : List Char),
    cs.foldl (fun a c => if c == '"' || c == '\\' then a ++ ['\\', c] else a ++ [c]) acc =
      acc ++ (cs.map (fun c => if c == '"' || c == '\\' then ['\\', c] else [c])).flatten
  | [], acc => by simp
  | c :: cs, acc => by
    by_cases hc : (c == '"' || c == '\\') = true
    · rw [List.foldl_cons, List.map_cons, List.flatten_cons, if_pos hc, if_pos hc,
        escapeChars_foldl_append cs, List.append_assoc]
    · rw [List.foldl_cons, List.map_cons, List.flatten_cons, if_neg hc, if_neg hc,
        escapeChars_foldl_append cs, List.append_assoc]

/-- C10: the INPUT_SCHEMA, OUTPUT_SCHEMA and ERROR_SCHEMA values of the
standalone module `src/json_contracts.py` are structurally equal to the
values of the same names in the package module
`src/json_contracts/__init__.py`. -/
theorem json_contracts_copies_equal :
    GraphvizX.ContractsModule.INPUT_SCHEMA = GraphvizX.ContractsPackage.INPUT_SCHEMA ∧
    GraphvizX.ContractsModule.OUTPUT_SCHEMA = GraphvizX.ContractsPackage.OUTPUT_SCHEMA ∧
    GraphvizX.ContractsModule.ERROR_SCHEMA = GraphvizX.ContractsPackage.ERROR_SCHEMA :=
  ⟨rfl, rfl, rfl⟩

/-- C1: when the native binding is unavailable and no external renderer
resolves, an export call still writes `base_path + ".dot"` containing the
DOT source verbatim, returns an absent image path, records an
`ExportResult` with `succeeded = false` and method `unavailable`, and —
being a total function — lets no exception propagate. -/
theorem export_no_renderer (env : RenderEnv) (b : Builder) (src base fmt : String)
    (hn : env.nativeAvailable = false) (hr : env.resolvedBinary = none) :
    exportRun env src base fmt =
      ([(base ++ ".dot", src)], (base ++ ".dot", none),
        ⟨false, base ++ ".dot", none, ExportMethod.unavailable, none⟩) ∧
    (toSvg env b base).1 = none ∧
    ∃ res, (toSvg env b base).2.last_result = some res ∧ res.succeeded = false := by
  refine ⟨by simp [exportRun, hn, hr], by simp [toSvg, exportRun, hn, hr], ?_⟩
  exact ⟨⟨false, base ++ ".dot", none, ExportMethod.unavailable, none⟩,
    by simp [toSvg, exportRun, hn, hr], rfl⟩

/-- Witness for C1 at a concrete renderer-free environment. -/
theorem export_no_renderer_witness :
    (toSvg ⟨false, none, 0, ""⟩ ⟨exampleSpec, none, 0, none⟩ "/tmp/d").1 = none :=
  (export_no_renderer ⟨false, none, 0, ""⟩ ⟨exampleSpec, none, 0, none⟩ "x" "/tmp/d" "svg"
    rfl rfl).2.1

/-- C2: `dot_source()` is a pure function of the builder's graph state:
two builders with equal graph state — in particular the same builder
before and after a second, mutation-free call — produce byte-identical
DOT text, whatever their renderer configuration or recorded export
results. -/
theorem dot_source_deterministic (b b' : Builder) (h : b.spec = b'.spec) :
    dot_source b = dot_source b' := by
  simp [dot_source, h]

/-- Witness for C2: equal graph state, different renderer configuration. -/
theorem dot_source_deterministic_witness :
    dot_source ⟨exampleSpec, none, 0, none⟩ =
      dot_source ⟨exampleSpec, some "/usr/bin/dot", 7, none⟩ :=
  dot_source_deterministic ⟨exampleSpec, none, 0, none⟩
    ⟨exampleSpec, some "/usr/bin/dot", 7, none⟩ rfl

/-- C3: the attribute encoder returns the empty string on the empty
mapping (and the caller then emits no brackets), skips every key with an
absent value, emits each remaining entry exactly once as a
comma-separated `key="value"` token with the value double-quoted, and
escapes exactly the embedded double quotes and backslashes with a
backslash, leaving every other character unchanged. -/
theorem attribute_encoder_contract :
    encodeAttrs [] = "" ∧
    bracketSuffix "" = "" ∧
    (∀ (attrs₁ attrs₂ : List (String × AttrValue)) (k : String),
      encodeAttrs (attrs₁ ++ (k, AttrValue.absent) :: attrs₂) =
        encodeAttrs (attrs₁ ++ attrs₂)) ∧
    (∀ attrs : List (String × AttrValue),
      encodeAttrs attrs =
        String.intercalate ", "
          (attrs.filterMap (fun kv =>
            (valueText kv.2).map (fun t => kv.1 ++ "=\"" ++ escapeDot t ++ "\"")))) ∧
    (∀ s : String,
      escapeDot s =
        String.mk ((s.data.map (fun c =>
          if c == '"' || c == '\\' then ['\\', c] else [c])).flatten)) ∧
    (∀ nid : String, nodeStatement ⟨nid, none, []⟩ = "  " ++ quoteId nid) := by
  refine ⟨rfl, rfl, ?_, fun _ => rfl, ?_, ?_⟩
  · intro attrs₁ attrs₂ k
    simp [encodeAttrs, List.filterMap_append, List.filterMap_cons, valueText]
  · intro s
    unfold escapeDot escapeChars
    rw [escapeChars_foldl_append s.data []]
    rfl
  · intro nid
    have h : encodeAttrs ([] : List (String × AttrValue)) = "" := rfl
    simp [nodeStatement, attrsWithLabel, h, bracketSuffix]

/-- C4: when every rendering tier fails — the native binding is
unavailable and any resolved external renderer exits non-zero (or none
resolves at all) — `render` returns the raw DOT source text instead of
raising. -/
theorem render_textual_fallback (env : RenderEnv) (b : Builder) (f fmt : String)
    (hn : env.nativeAvailable = false)
    (hr : ∀ bin, env.resolvedBinary = some bin → env.runnerExitCode ≠ 0) :
    render env b f fmt = dot_source b := by
  unfold render
  rcases hres : env.resolvedBinary with _ | bin
  · simp [exportRun, hn, hres]
  · have hx : env.runnerExitCode ≠ 0 := hr bin hres
    simp [exportRun, hn, hres, hx]

/-- Witness for C4 at a failing external renderer. -/
theorem render_textual_fallback_witness :
    render ⟨false, some "/usr/bin/dot", 2, "boom"⟩ ⟨exampleSpec, none, 0, none⟩ "/tmp/d" "png" =
      dot_source ⟨exampleSpec, none, 0, none⟩ :=
  render_textual_fallback ⟨false, some "/usr/bin/dot", 2, "boom"⟩ ⟨exampleSpec, none, 0, none⟩
    "/tmp/d" "png" rfl (fun _ _ => by decide)

/-- C5: discovery (`vendored_dot_binaries` via `_normalize_candidates`)
returns only successfully resolved paths of regular files, free of
duplicate resolved paths, sorted lexicographically by resolved path
string. -/
theorem discover_files_nodup_sorted (fs : FS) (root : String) :
    (∀ r ∈ computeVendoredDotBinaries fs root,
      fs.isFile r = true ∧ ∃ c ∈ iterPaths fs root dotPatterns, fs.resolve c = some r) ∧
    (computeVendoredDotBinaries fs root).Nodup ∧
    (computeVendoredDotBinaries fs root).Sorted (· ≤ ·) := by
  obtain ⟨h1, h2, h3⟩ :=
    normFold_inv fs (iterPaths fs root dotPatterns) [] List.nodup_nil (by simp)
  have hmem : ∀ r : String, r ∈ computeVendoredDotBinaries fs root ↔
      r ∈ ((iterPaths fs root dotPatterns).foldl (normStep fs) ([], [])).1 := by
    intro r
    unfold computeVendoredDotBinaries normalizeCandidates
    simp
  refine ⟨?_, ?_, ?_⟩
  · intro r hr
    have hr' := (hmem r).mp hr
    refine ⟨h2 r hr', ?_⟩
    rcases h3 r hr' with h | h
    · exact absurd h (List.not_mem_nil r)
    · exact h
  · unfold computeVendoredDotBinaries normalizeCandidates
    exact ((List.perm_insertionSort _ _).nodup_iff).mpr h1
  · unfold computeVendoredDotBinaries normalizeCandidates
    haveI : IsTotal String (fun a b => strLe a b = true) := ⟨strLe_total⟩
    haveI : IsTrans String (fun a b => strLe a b = true) := ⟨fun _ _ _ => strLe_trans⟩
    exact List.Pairwise.imp (fun h => (strLe_iff_le _ _).mp h)
      (List.sorted_insertionSort (fun a b => strLe a b = true) _)

/-- Witness for C5 on the concrete example filesystem. -/
theorem discover_files_nodup_sorted_witness :
    exampleFS.isFile "/pkg/vendor/bin/dot" = true ∧
    (computeVendoredDotBinaries exampleFS "/pkg/vendor").Nodup :=
  ⟨((discover_files_nodup_sorted exampleFS "/pkg/vendor").1 "/pkg/vendor/bin/dot"
      (by decide)).1,
    (discover_files_nodup_sorted exampleFS "/pkg/vendor").2.1⟩

/-- C6: with `windows_only = true` on a non-Windows host,
`find_vendored_dot_binary` returns absent unconditionally, whatever the
vendor directory contains. -/
theorem find_vendored_non_windows (binaries : List String) :
    findVendoredDotBinary false true binaries = none := rfl

/-- C7: on Windows with `windows_only = true`, `find_vendored_dot_binary`
returns the first discovered candidate (in the discovery order, which is
sorted) whose name carries the `.exe` suffix — absent when no candidate
qualifies — and with `windows_only = false` it returns the first candidate
outright, absent on an empty list. -/
theorem find_vendored_first_match (isW : Bool) (bins pre post : List String) (c : String) :
    (findVendoredDotBinary true true bins = bins.find? hasWindowsExeSuffix) ∧
    (findVendoredDotBinary isW false bins = bins.head?) ∧
    ((∀ x ∈ bins, hasWindowsExeSuffix x = false) →
      findVendoredDotBinary true true bins = none) ∧
    ((∀ x ∈ pre, hasWindowsExeSuffix x = false) → hasWindowsExeSuffix c = true →
      findVendoredDotBinary true true (pre ++ c :: post) = some c) := by
  have hfind : ∀ l : List String,
      findVendoredDotBinary true true l = l.find? hasWindowsExeSuffix := by
    intro l
    cases l with
    | nil => rfl
    | cons x xs => exact firstExeCandidate_eq_find (x :: xs)
  refine ⟨hfind bins, ?_, ?_, ?_⟩
  · cases bins <;> rfl
  · intro h
    rw [hfind]
    exact List.find?_eq_none.mpr (fun x hx => by simp [h x hx])
  · intro hpre hc
    rw [hfind]
    induction pre with
    | nil => simp [List.find?_cons, hc]
    | cons p ps ih =>
      have hp := hpre p (List.mem_cons_self _ _)
      rw [List.cons_append, List.find?_cons, hp]
      exact ih (fun y hy => hpre y (List.mem_cons_of_mem _ hy))

/-- Witness for C7: the first `.exe`-suffixed candidate is picked on
Windows; the overall first candidate is picked with `windows_only`
off. -/
theorem find_vendored_first_match_witness :
    findVendoredDotBinary true true ["/v/a.txt", "/v/dot.exe", "/v/z.exe"] =
        some "/v/dot.exe" ∧
    findVendoredDotBinary true false ["/v/a.txt", "/v/dot.exe"] = some "/v/a.txt" :=
  ⟨(find_vendored_first_match true ["/v/a.txt", "/v/dot.exe", "/v/z.exe"]
      ["/v/a.txt"] ["/v/z.exe"] "/v/dot.exe").2.2.2 (by decide) (by decide),
    (find_vendored_first_match true ["/v/a.txt", "/v/dot.exe"] [] [] "").2.1.trans rfl⟩

/-- C8: the discovery scan behind `vendored_dot_binaries` runs at most
once per process — after `n + 1` calls from a fresh process state every
call has returned the same tuple and the scan counter stands at one. -/
theorem vendored_binaries_cached (fs : FS) (root : String) (n : Nat) :
    (runCalls fs root (n + 1) initCache).1 =
      List.replicate (n + 1) (computeVendoredDotBinaries fs root) ∧
    (runCalls fs root (n + 1) initCache).2.scans = 1 := by
  have hstep : vendoredDotBinariesCall fs root initCache =
      (computeVendoredDotBinaries fs root,
        ⟨some (computeVendoredDotBinaries fs root), 1⟩) := rfl
  have hrest := runCalls_after_hit fs root n
    ⟨some (computeVendoredDotBinaries fs root), 1⟩ (computeVendoredDotBinaries fs root) rfl
  constructor <;> simp [runCalls, hstep, hrest, List.replicate_succ]

/-- C9: a missing vendor directory yields an empty discovery result and an
absent preferred binary without any exception, and a candidate whose
resolution raises `OSError` is silently skipped. -/
theorem vendor_missing_or_unresolvable (fs : FS) (root c : String) (cs : List String) :
    (fs.pathExists root = false →
      computeVendoredDotBinaries fs root = [] ∧
      ∀ isW wo : Bool,
        findVendoredDotBinary isW wo (computeVendoredDotBinaries fs root) = none) ∧
    (fs.resolve c = none →
      normalizeCandidates fs (c :: cs) = normalizeCandidates fs cs) := by
  constructor
  · intro h
    have hempty : computeVendoredDotBinaries fs root = [] := by
      simp [computeVendoredDotBinaries, iterPaths, h, normalizeCandidates]
    refine ⟨hempty, fun isW wo => ?_⟩
    rw [hempty]
    cases isW <;> cases wo <;> rfl
  · intro h
    have hstep : normStep fs (([] : List String), ([] : List String)) c = ([], []) := by
      simp [normStep, h]
    unfold normalizeCandidates
    rw [List.foldl_cons, hstep]

/-- Witness for C9: the empty filesystem has no vendor directory; the
example filesystem's broken candidate is skipped. -/
theorem vendor_missing_or_unresolvable_witness :
    computeVendoredDotBinaries emptyFS "/pkg/vendor" = [] ∧
    normalizeCandidates exampleFS ["/pkg/vendor/broken/dot"] =
      normalizeCandidates exampleFS [] :=
  ⟨((vendor_missing_or_unresolvable emptyFS "/pkg/vendor" "" []).1 rfl).1,
    (vendor_missing_or_unresolvable exampleFS "/x" "/pkg/vendor/broken/dot" []).2
      (by decide)⟩
